import Mathlib

/-!
Verification of the Panamax mirror engine (src/download.rs, src/rustup.rs,
src/crates_index.rs) against its natural-language specification.

The Rust code is shallowly embedded: filesystems are finite maps from path
strings to byte lists, the HTTP collaborator is an environment parameter
giving the outcome of each network fetch, and the SHA-256 collaborator is a
parameter function from bytes to (the bytes of) a hex digest.  Stateful
functions become explicit state passing; functions whose interesting effects
are ordered also return a trace of actions.  Rust panics are modelled by
Option.none.
-/

/-- Finite map as an association list; the key-value pairs earlier in the
list shadow later ones, and insert erases first so lookups compute easily. -/
abbrev Fmap (α β : Type) : Type := List (α × β)

namespace Fmap

variable {α β : Type} [DecidableEq α]

def find : Fmap α β → α → Option β
  | [], _ => none
  | (k, v) :: rest, k1 => if k1 = k then some v else find rest k1

def erase : Fmap α β → α → Fmap α β
  | [], _ => []
  | (k, v) :: rest, k1 => if k = k1 then erase rest k1 else (k, v) :: erase rest k1

def insert (m : Fmap α β) (k : α) (v : β) : Fmap α β :=
  (k, v) :: erase m k

theorem find_erase (m : Fmap α β) (k k1 : α) :
    find (erase m k) k1 = if k1 = k then none else find m k1 := by
  induction m with
  | nil =>
    simp only [erase, find, ite_self]
  | cons p rest ih =>
    obtain ⟨pk, pv⟩ := p
    by_cases hp : pk = k
    · subst hp
      by_cases hk : k1 = pk
      · subst hk
        simp [erase, find, ih]
      · simp [erase, find, hk, ih]
    · by_cases hk : k1 = pk
      · subst hk
        simp [erase, find, hp, ih, Ne.symm hp]
      · simp [erase, find, hp, hk, ih]

theorem find_insert (m : Fmap α β) (k : α) (v : β) (k1 : α) :
    find (insert m k v) k1 = if k1 = k then some v else find m k1 := by
  by_cases hk : k1 = k <;> simp [insert, find, hk, find_erase]

theorem find_insert_same (m : Fmap α β) (k : α) (v : β) :
    find (insert m k v) k = some v := by
  simp [find_insert]

theorem find_insert_ne (m : Fmap α β) (k : α) (v : β) (k1 : α) (h : k1 ≠ k) :
    find (insert m k v) k1 = find m k1 := by
  simp [find_insert, h]

end Fmap

/-! ## Embedding of src/download.rs -/

/-- Byte strings: file contents, response bodies and digests are byte lists. -/
abbrev Bytes : Type := List Nat

/-- Filesystem model: a finite map from path strings to file contents. -/
abbrev FS : Type := Fmap String Bytes

/-- Outcome of one HTTP GET: either a transport error (reqwest::Error raised
by get or by reading the body) or a response carrying a status code and a
body.  Note that with a reqwest 0.9 blocking get, a 404 yields an Ok
response whose status is 404; it is not a transport error. -/
inductive FetchOutcome : Type
  | netErr : FetchOutcome
  | resp (status : Nat) (body : Bytes) : FetchOutcome
deriving DecidableEq, Repr

/-- The DownloadError enum of src/download.rs.  Its variants are exactly
Io, Download and MismatchedHash; there is no NotFound variant in this file.
The Io variant is named IoErr here; payloads of the first two variants are
collaborator error types and are dropped. -/
inductive DownloadError : Type
  | IoErr : DownloadError
  | Download : DownloadError
  | MismatchedHash (expected actual : Bytes) : DownloadError
deriving DecidableEq, Repr

/-- One download attempt, from src/download.rs one_download (lines 87-119):
GET the url (a transport error propagates before any file is touched),
stream the body into path ++ ".part" (a 404 status is never inspected: its
body is streamed like any other), hash the streamed bytes when a digest was
supplied, and on a digest match (or when no digest was supplied) rename the
.part file onto the final path.  Returns the result and the new filesystem.
hashFn is the SHA-256 collaborator producing hex-digest bytes. -/
def one_download (hashFn : Bytes → Bytes) (fetch : FetchOutcome) (path : String)
    (hash : Option Bytes) (fs : FS) : Except DownloadError Unit × FS :=
  match fetch with
  | FetchOutcome.netErr => (Except.error DownloadError.Download, fs)
  | FetchOutcome.resp _ body =>
    let part_path := path ++ ".part"
    let fs1 := fs.insert part_path body
    match hash with
    | some h =>
      if hashFn body = h then
        (Except.ok (), (fs1.erase part_path).insert path body)
      else
        (Except.error (DownloadError.MismatchedHash h (hashFn body)), fs1)
    | none => (Except.ok (), (fs1.erase part_path).insert path body)

/-- The retry loop body of src/download.rs download (lines 132-140).  The
Rust variable res is threaded through; crucially, on a successful attempt
the loop breaks BEFORE the assignment to res completes, so res keeps the
value left by the previous attempt.  env gives the fetch outcome of each
attempt by index; the returned Nat counts the fetches performed. -/
def downloadLoop (hashFn : Bytes → Bytes) (env : Nat → FetchOutcome) (path : String)
    (hash : Option Bytes) : Nat → Nat → Except DownloadError Unit → FS →
    Except DownloadError Unit × FS × Nat
  | _, 0, res, fs => (res, fs, 0)
  | i, fuel + 1, res, fs =>
    match one_download hashFn (env i) path hash fs with
    | (Except.ok _, fs1) => (res, fs1, 1)
    | (Except.error e, fs1) =>
      let r := downloadLoop hashFn env path hash (i + 1) fuel (Except.error e) fs1
      (r.1, r.2.1, r.2.2 + 1)

/-- src/download.rs download (lines 122-146): if the destination exists and
force_download is false, return Ok with no fetch; otherwise run the retry
loop for retries + 1 attempts starting from res = Ok(()), and return the
final value of res.  Returns (result, filesystem, number of fetches). -/
def download (hashFn : Bytes → Bytes) (env : Nat → FetchOutcome) (path : String)
    (hash : Option Bytes) (retries : Nat) (force_download : Bool) (fs : FS) :
    Except DownloadError Unit × FS × Nat :=
  if (fs.find path).isSome && !force_download then
    (Except.ok (), fs, 0)
  else
    downloadLoop hashFn env path hash 0 (retries + 1) (Except.ok ()) fs

/-- src/download.rs download_with_sha256_file (lines 149-168): fetch the
sidecar url ++ ".sha256" as text (a failure there propagates), take its
first 64 BYTES unchecked -- a body shorter than 64 bytes makes the slice
panic, modelled as none -- use them as the expected digest for download,
and after a successful download write the whole sidecar text next to the
artifact.  sidecarFetch is the outcome of the sidecar GET. -/
def download_with_sha256_file (hashFn : Bytes → Bytes) (env : Nat → FetchOutcome)
    (sidecarFetch : Except DownloadError Bytes) (path : String) (retries : Nat)
    (force_download : Bool) (fs : FS) :
    Option (Except DownloadError Unit × FS × Nat) :=
  match sidecarFetch with
  | Except.error e => some (Except.error e, fs, 0)
  | Except.ok sha256_data =>
    if sha256_data.length < 64 then
      none
    else
      let sha256_hash := sha256_data.take 64
      let r := download hashFn env path (some sha256_hash) retries force_download fs
      match r.1 with
      | Except.error e => some (Except.error e, r.2.1, r.2.2)
      | Except.ok _ =>
        some (Except.ok (), (r.2.1).insert (path ++ ".sha256") sha256_data, r.2.2)

/-! ## Embedding of src/rustup.rs -/

/-- The DownloadError shape that src/rustup.rs pattern-matches on: unlike the
enum declared in src/download.rs, the matches in rustup.rs (sync_rustup_init,
sync) require a NotFound variant with fields status, url and data.  The Io
variant is named IoErr here; collaborator payloads of IoErr and Download are
dropped. -/
inductive RDownloadError : Type
  | IoErr : RDownloadError
  | Download : RDownloadError
  | NotFound (status : Nat) (url : String) (data : String) : RDownloadError
  | MismatchedHash (expected actual : String) : RDownloadError
deriving DecidableEq, Repr

/-- The SyncError enum of src/rustup.rs (payloads of wrapped collaborator
errors dropped except for the DownloadError and the failure count).  The
variants Io and StripPrefix are named IoErr and StripPrefixErr here. -/
inductive SyncError : Type
  | IoErr : SyncError
  | Download (e : RDownloadError) : SyncError
  | Parse : SyncError
  | Serialize : SyncError
  | StripPrefixErr : SyncError
  | FailedDownloads (count : Nat) : SyncError
deriving DecidableEq, Repr

structure TargetUrls where
  url : String
  hash : String
  xz_url : String
  xz_hash : String
deriving DecidableEq, Repr

structure Target where
  available : Bool
  target_urls : Option TargetUrls
deriving DecidableEq, Repr

/-- A Pkg of the channel manifest.  The Rust HashMap is modelled as an
association list; HashMap iteration order is arbitrary, which the list order
represents. -/
structure Pkg where
  version : String
  target : List (String × Target)
deriving DecidableEq, Repr

structure Channel where
  manifest_version : String
  date : String
  pkg : List (String × Pkg)
deriving DecidableEq, Repr

structure Platforms where
  unix : List String
  windows : List String
deriving DecidableEq, Repr

/-- Rust str::split on a single separator character: every occurrence of the
separator produces a boundary, so leading, trailing and doubled separators
yield empty segments, and the empty input yields one empty segment. -/
def splitSlash : List Char → List (List Char)
  | [] => [[]]
  | c :: rest =>
    let r := splitSlash rest
    if c = '/' then [] :: r
    else
      match r with
      | [] => [[c]]
      | g :: gs => (c :: g) :: gs

/-- Join segments back with a slash separator (Vec::join("/")). -/
def joinSlash : List (List Char) → List Char
  | [] => []
  | [g] => g
  | g :: gs => g ++ '/' :: joinSlash gs

/-- The relative-path computation of rustup_download_list (rustup.rs line
400): split the URL on slashes, drop the first three segments (scheme, the
empty segment after the double slash, and the host), join the rest.  The Rust
slice v[3..] panics when the URL has fewer than three segments; the claims
never touch that edge and drop is total there. -/
def relativePath (url : String) : String :=
  String.mk (joinSlash ((splitSlash url.data).drop 3))

/-- rustup_download_list (rustup.rs lines 371-407) applied to an already
parsed Channel (the source reads and toml-parses the staged manifest file
first; a read or parse failure propagates as an error and produces no list).
Returns the manifest date and the (relative path, digest) pairs.  Note the
package filter keeps a package iff download_dev is true OR the package name
equals "rustc-dev". -/
def rustup_download_list (channel : Channel) (download_dev : Bool)
    (platforms : Platforms) : String × List (String × String) :=
  (channel.date,
    (channel.pkg.filter (fun p => download_dev || p.1 == "rustc-dev")).flatMap
      (fun p =>
        (p.2.target.filter (fun t =>
            platforms.unix.contains t.1 || platforms.windows.contains t.1 ||
              t.1 == "*")).flatMap
          (fun t =>
            match t.2.target_urls with
            | some urls =>
              [(relativePath urls.url, urls.hash),
               (relativePath urls.xz_url, urls.xz_hash)]
            | none => [])))

/-- The per-platform worker body of sync_rustup_init (rustup.rs lines
289-318 and 324-353): a NotFound error from sync_one_init is swallowed, any
other error increments the shared failure counter by one.  outcome gives the
result of sync_one_init for a platform and its is_exe flag (none means
success). -/
def workerFailures (outcome : String → Bool → Option RDownloadError)
    (platform : String) (exeFlag : Bool) : Nat :=
  match outcome platform exeFlag with
  | none => 0
  | some e =>
    match e with
    | RDownloadError.NotFound _ _ _ => 0
    | _ => 1

/-- The value of the errors_occurred counter of sync_rustup_init after both
fan-out loops: unix platforms run with is_exe = false, windows platforms
with is_exe = true.  The counter is a commutative sum, so the concurrent
schedule does not affect its final value. -/
def countInitErrors (outcome : String → Bool → Option RDownloadError)
    (platforms : Platforms) : Nat :=
  (platforms.unix.map (fun p => workerFailures outcome p false)).sum +
    (platforms.windows.map (fun p => workerFailures outcome p true)).sum

/-- An error counts as an installer-sync failure iff it is present and not a
NotFound. -/
def realFailure (o : Option RDownloadError) : Bool :=
  match o with
  | none => false
  | some (RDownloadError.NotFound _ _ _) => false
  | some _ => true

/-- sync_rustup_init (rustup.rs lines 251-368).  preamble is the combined
result of downloading release-stable.toml, parsing the rustup version out of
it and renaming it into place; each of those steps propagates its error with
the question-mark operator before any platform work starts.  After the
fan-out, the function returns Ok iff the failure counter is zero, and
FailedDownloads carrying the counter otherwise. -/
def sync_rustup_init (preamble : Except SyncError String)
    (outcome : String → Bool → Option RDownloadError)
    (platforms : Platforms) : Except SyncError Unit :=
  match preamble with
  | Except.error e => Except.error e
  | Except.ok _rustup_version =>
    let errors := countInitErrors outcome platforms
    if errors = 0 then Except.ok ()
    else Except.error (SyncError.FailedDownloads errors)

/-- The channel-history ledger: the versions map of a ChannelHistoryFile,
from date strings to lists of relative artifact paths. -/
abbrev ChannelHistory : Type := Fmap String (List String)

/-- add_to_channel_history (rustup.rs lines 565-583) applied to the parsed
ledger state: insert the date mapped to the first components of the file
pairs.  The source additionally round-trips the ledger through its toml file;
the ledger state stands for that file's contents. -/
def add_to_channel_history (ledger : ChannelHistory) (date : String)
    (files : List (String × String)) : ChannelHistory :=
  ledger.insert date (files.map Prod.fst)

/-- Observable filesystem actions of the channel-sync commit phase, used to
state in which order the ledger write and the manifest renames happen. -/
inductive SyncAction : Type
  | writeLedger (date : String) (paths : List String) : SyncAction
  | renameFile (src dst : String) : SyncAction
deriving DecidableEq, Repr

/-- move_if_exists (download.rs lines 72-77): rename src onto dst when src
exists, do nothing otherwise.  Also returns the rename action performed. -/
def move_if_exists (src dst : String) (fs : FS) : FS × List SyncAction :=
  match fs.find src with
  | some v => ((fs.erase src).insert dst v, [SyncAction.renameFile src dst])
  | none => (fs, [])

/-- move_if_exists_with_sha256 (download.rs lines 79-85): move the .sha256
sidecar first, then the file itself. -/
def move_if_exists_with_sha256 (src dst : String) (fs : FS) :
    FS × List SyncAction :=
  let r1 := move_if_exists (src ++ ".sha256") (dst ++ ".sha256") fs
  let r2 := move_if_exists src dst r1.1
  (r2.1, r1.2 ++ r2.2)

/-- sync_rustup_channel (rustup.rs lines 593-656).  manifestStage is the
combined result of staging the channel manifest at channel_path ++ ".part"
(with forced re-download) and parsing it with rustup_download_list; any
error there propagates before the batch.  outcome gives the per-artifact
result of sync_one_rustup_target (none means success); every error counts,
with no NotFound exemption in this function.  The filesystem tracks the
staged manifest and sidecar; the trace records the commit-phase actions in
program order. -/
def sync_rustup_channel
    (manifestStage : Except SyncError (String × List (String × String)))
    (outcome : String × String → Option RDownloadError)
    (channel_path : String) (ledger : ChannelHistory) (fs : FS) :
    Except SyncError Unit × ChannelHistory × FS × List SyncAction :=
  match manifestStage with
  | Except.error e => (Except.error e, ledger, fs, [])
  | Except.ok (date, files) =>
    let channel_part_path := channel_path ++ ".part"
    let errors := files.countP (fun f => (outcome f).isSome)
    if errors = 0 then
      let ledger1 := add_to_channel_history ledger date files
      let r := move_if_exists_with_sha256 channel_part_path channel_path fs
      (Except.ok (), ledger1, r.1,
        SyncAction.writeLedger date (files.map Prod.fst) :: r.2)
    else
      (Except.error (SyncError.FailedDownloads errors), ledger, fs, [])

/-- latest_dates_from_channel_history (rustup.rs lines 438-451): collect the
ledger's date keys, sort ascending, reverse, truncate to the requested
number of versions. -/
def latest_dates_from_channel_history (ledger : ChannelHistory)
    (versions : Nat) : List String :=
  ((List.insertionSort (fun a b : String => a ≤ b)
    (ledger.map Prod.fst)).reverse).take versions

/-- The keep-set contribution of one channel in clean_old_files (rustup.rs
lines 463-473 and its beta/nightly twins): the artifact paths listed in the
ledger under the latest dates, unioned; membership in this list is
membership in the files_to_keep set. -/
def keepSetForChannel (ledger : ChannelHistory) (n : Nat) : List String :=
  (latest_dates_from_channel_history ledger n).flatMap
    (fun d => (ledger.find d).getD [])

/-! ## Embedding of src/crates_index.rs -/

/-- The IndexSyncError enum of src/crates_index.rs; variant names Io and
IntegerConversionError are kept up to the IoErr renaming, payloads of
collaborator error types are dropped. -/
inductive IndexSyncError : Type
  | IoErr : IndexSyncError
  | SerializeError : IndexSyncError
  | GitError : IndexSyncError
  | IntegerConversionError : IndexSyncError
deriving DecidableEq, Repr

/-- Data of one git commit: parent ids, message, author and committer
signature, and the tree snapshot (path to file contents). -/
structure CommitData where
  parents : List Nat
  message : String
  authorName : String
  authorEmail : String
  committerName : String
  committerEmail : String
  tree : Fmap String String
deriving DecidableEq, Repr

/-- Model of the crates.io-index git repository: references, the commit
store with a fresh-id allocator, the working tree and the staging index. -/
structure GitRepo where
  refs : Fmap String Nat
  commits : Fmap Nat CommitData
  nextId : Nat
  worktree : Fmap String String
  index : Fmap String String
deriving DecidableEq, Repr

/-- Observable repository actions, used to state that the base_url = None
path of update_crates_config touches nothing. -/
inductive GitAction : Type
  | openRepo : GitAction
  | writeFile (path : String) : GitAction
  | addPath (path : String) : GitAction
  | makeCommit (id : Nat) : GitAction
deriving DecidableEq, Repr

def hexDigit (n : Nat) : Char :=
  if n < 10 then Char.ofNat (48 + n) else Char.ofNat (87 + n)

/-- The JSON string escaping performed by serde_json when serializing the
ConfigJson strings: quote and backslash get a backslash escape, the common
control characters get their short escapes, remaining control characters get
a four-digit unicode escape, and everything else passes through. -/
def jsonEscapeChar (c : Char) : List Char :=
  if c = '"' then ['\\', '"']
  else if c = '\\' then ['\\', '\\']
  else if c = '\n' then ['\\', 'n']
  else if c = '\t' then ['\\', 't']
  else if c = '\r' then ['\\', 'r']
  else if c.toNat = 8 then ['\\', 'b']
  else if c.toNat = 12 then ['\\', 'f']
  else if c.toNat < 32 then
    ['\\', 'u', '0', '0', hexDigit (c.toNat / 16), hexDigit (c.toNat % 16)]
  else [c]

def jsonEscape (s : String) : String :=
  String.mk (s.data.flatMap jsonEscapeChar)

/-- serde_json::to_vec_pretty of the ConfigJson struct with fields dl and
api in declaration order: a two-space-indented pretty object. -/
def to_vec_pretty (dl api : String) : String :=
  "\x7b\n  \"dl\": \"" ++ jsonEscape dl ++ "\",\n  \"api\": \"" ++
    jsonEscape api ++ "\"\n\x7d"

def panamaxName : String := "Panamax"

def panamaxEmail : String := "panamax@panamax"

/-- rewrite_config_json (crates_index.rs lines 138-177): open the
repository, write the pretty-printed config.json into the working tree,
stage it (git add) and write the tree, look up refs/heads/master and peel it
to the parent commit, then create a commit with the Panamax signature as
both author and committer and the message "Rewrite config.json", updating
refs/heads/master to the new commit.  A missing master reference surfaces as
a git error after the file writes, matching the source order. -/
def rewrite_config_json (repo : GitRepo) (base_url : String) :
    Except IndexSyncError Unit × GitRepo × List GitAction :=
  let contents := to_vec_pretty base_url base_url
  let wt := repo.worktree.insert "config.json" contents
  let idx := repo.index.insert "config.json" contents
  match repo.refs.find "refs/heads/master" with
  | none =>
    (Except.error IndexSyncError.GitError,
      { repo with worktree := wt, index := idx },
      [GitAction.openRepo, GitAction.writeFile "config.json",
        GitAction.addPath "config.json"])
  | some tip =>
    let cid := repo.nextId
    let cd : CommitData :=
      { parents := [tip], message := "Rewrite config.json",
        authorName := panamaxName, authorEmail := panamaxEmail,
        committerName := panamaxName, committerEmail := panamaxEmail,
        tree := idx }
    (Except.ok (),
      { refs := repo.refs.insert "refs/heads/master" cid,
        commits := repo.commits.insert cid cd,
        nextId := cid + 1, worktree := wt, index := idx },
      [GitAction.openRepo, GitAction.writeFile "config.json",
        GitAction.addPath "config.json", GitAction.makeCommit cid])

/-- update_crates_config (crates_index.rs lines 81-92): when the crates
configuration carries no base_url, return Ok immediately; otherwise run
rewrite_config_json on the repository at mirror_path/crates.io-index. -/
def update_crates_config (base_url : Option String) (repo : GitRepo) :
    Except IndexSyncError Unit × GitRepo × List GitAction :=
  match base_url with
  | none => (Except.ok (), repo, [])
  | some u => rewrite_config_json repo u

/-- A concrete upstream commit, used to instantiate the repository model. -/
def initCommitData : CommitData :=
  { parents := [], message := "init", authorName := "a", authorEmail := "a@a",
    committerName := "a", committerEmail := "a@a", tree := [] }

/-- A concrete one-commit repository whose master tip is commit 0. -/
def repo0 : GitRepo :=
  { refs := [("refs/heads/master", 0)], commits := [(0, initCommitData)],
    nextId := 1, worktree := [], index := [] }

/-! ## Helper lemmas -/

theorem str_ne_of_length_ne (s t : String) (h : s.length ≠ t.length) : s ≠ t :=
  fun e => h (congrArg String.length e)

/-! ## Claims -/

/-- Claim C1: the spec says a download whose transient failure is followed by
a successful attempt within the retry budget returns ok.  The code violates
this: in the retry loop of download (download.rs lines 132-140) the
assignment res = match one_download(..) breaks out of the loop on Ok before
res is updated, so res keeps the error of the previous attempt.  At the
concrete input below (attempt 0 is a network error, attempt 1 succeeds with
a matching digest, retries = 1) the verified file IS committed to its final
path, yet download returns the stale Download error instead of ok. -/
theorem download_returns_stale_error_after_successful_retry :
    download (fun b => b)
      (fun i => if i = 0 then FetchOutcome.netErr else FetchOutcome.resp 200 [1, 2, 3])
      "dist/2020-01-01/a.tar.gz" (some [1, 2, 3]) 1 false [] =
      (Except.error DownloadError.Download,
       [("dist/2020-01-01/a.tar.gz", [1, 2, 3])], 2) := by
  rfl

/-- Claim C4: the spec says a 404-equivalent answer is reported as a distinct
NotFound error kind and is never retried.  The DownloadError enum of
src/download.rs has no NotFound variant at all, and one_download never
inspects the response status: the 404 body is streamed into the .part file
and hash-checked like any other response.  At the concrete input below every
attempt is answered with status 404; with retries = 1 the code performs two
fetches (it retries the 404) and reports MismatchedHash, not NotFound. -/
theorem download_retries_404_and_reports_mismatched_hash :
    download (fun b => b) (fun _ => FetchOutcome.resp 404 [9])
      "rustup/dist/p/rustup-init" (some [7]) 1 false [] =
      (Except.error (DownloadError.MismatchedHash [7] [9]),
       [("rustup/dist/p/rustup-init.part", [9])], 2) := by
  rfl

/-- Claim C5: if the destination path already exists and force is false,
download returns ok immediately, performs no fetch, and leaves the
filesystem (the existing file and every other file) unchanged. -/
theorem download_skips_existing_destination (hashFn : Bytes → Bytes)
    (env : Nat → FetchOutcome) (path : String) (hash : Option Bytes)
    (retries : Nat) (fs : FS) (h : (fs.find path).isSome = true) :
    download hashFn env path hash retries false fs = (Except.ok (), fs, 0) := by
  simp [download, h]

/-- Witness for C5 at a concrete filesystem holding the destination. -/
theorem download_skips_existing_destination_witness :
    download (fun b => b) (fun _ => FetchOutcome.netErr) "dist/a.tar.gz"
      (some [1]) 5 false [("dist/a.tar.gz", [2, 3])] =
      (Except.ok (), [("dist/a.tar.gz", [2, 3])], 0) :=
  download_skips_existing_destination (fun b => b) (fun _ => FetchOutcome.netErr)
    "dist/a.tar.gz" (some [1]) 5 [("dist/a.tar.gz", [2, 3])] (by rfl)

/-- Claim C9: when the sidecar fetch succeeds but its body is shorter than 64
bytes, download_with_sha256_file panics on the unchecked 64-byte slice
(modelled as none) instead of returning a DownloadError; hence the function
is total only when the fetched sidecar text has at least 64 bytes. -/
theorem download_with_sha256_file_panics_on_short_sidecar
    (hashFn : Bytes → Bytes) (env : Nat → FetchOutcome) (data : Bytes)
    (path : String) (retries : Nat) (force_download : Bool) (fs : FS)
    (h : data.length < 64) :
    download_with_sha256_file hashFn env (Except.ok data) path retries
      force_download fs = none := by
  simp [download_with_sha256_file, h]

/-- Witness for C9 with an empty sidecar body. -/
theorem download_with_sha256_file_panics_on_short_sidecar_witness :
    download_with_sha256_file (fun b => b) (fun _ => FetchOutcome.netErr)
      (Except.ok []) "dist/a.tar.gz" 3 false [] = none :=
  download_with_sha256_file_panics_on_short_sidecar (fun b => b)
    (fun _ => FetchOutcome.netErr) [] "dist/a.tar.gz" 3 false [] (by decide)

/-- Claim C10: when the crates configuration has no base_url,
update_crates_config returns ok, leaves the repository (working tree, refs
and commit history) unchanged, and performs no repository action at all. -/
theorem update_crates_config_none_is_noop (repo : GitRepo) :
    update_crates_config none repo = (Except.ok (), repo, []) := by
  rfl

/-- Claim C2: the spec says download_dev = false skips exactly the package
named rustc-dev and keeps every other package.  The filter in
rustup_download_list (rustup.rs line 384) reads download_dev || pkg_name ==
"rustc-dev", which when download_dev is false keeps ONLY rustc-dev and skips
every other package.  At the concrete manifest below holding packages cargo
and rustc-dev, with download_dev = false, the emitted list contains exactly
the rustc-dev artifacts and none of cargo's -- the opposite of the claim.
This contradicts the code's own comment at rustup.rs line 666 ("Default to
not downloading rustc-dev"). -/
theorem rustup_download_list_keeps_only_rustc_dev_when_dev_false :
    rustup_download_list
      { manifest_version := "2", date := "2020-01-01",
        pkg :=
          [("cargo",
            { version := "1",
              target :=
                [("x86_64-unknown-linux-gnu",
                  { available := true,
                    target_urls := some
                      { url := "https://static.rust-lang.org/dist/2020-01-01/cargo.tar.gz",
                        hash := "h1",
                        xz_url := "https://static.rust-lang.org/dist/2020-01-01/cargo.tar.xz",
                        xz_hash := "h2" } })] }),
           ("rustc-dev",
            { version := "1",
              target :=
                [("x86_64-unknown-linux-gnu",
                  { available := true,
                    target_urls := some
                      { url := "https://static.rust-lang.org/dist/2020-01-01/rustc-dev.tar.gz",
                        hash := "h3",
                        xz_url := "https://static.rust-lang.org/dist/2020-01-01/rustc-dev.tar.xz",
                        xz_hash := "h4" } })] })] }
      false
      { unix := ["x86_64-unknown-linux-gnu"], windows := [] } =
      ("2020-01-01",
       [("dist/2020-01-01/rustc-dev.tar.gz", "h3"),
        ("dist/2020-01-01/rustc-dev.tar.xz", "h4")]) := by
  rfl

/-- A per-element 0/1 sum is a countP. -/
theorem sum_map_eq_countP {α : Type} (l : List α) (g : α → Nat) (q : α → Bool)
    (h : ∀ x, g x = if q x then 1 else 0) : (l.map g).sum = l.countP q := by
  induction l with
  | nil => simp
  | cons a l ih =>
    simp only [List.map_cons, List.sum_cons, List.countP_cons, ih, h a]
    by_cases hq : q a = true
    · simp [hq]
      omega
    · simp [hq]

theorem workerFailures_eq (outcome : String → Bool → Option RDownloadError)
    (platform : String) (exeFlag : Bool) :
    workerFailures outcome platform exeFlag =
      if realFailure (outcome platform exeFlag) then 1 else 0 := by
  unfold workerFailures realFailure
  match outcome platform exeFlag with
  | none => rfl
  | some RDownloadError.IoErr => rfl
  | some RDownloadError.Download => rfl
  | some (RDownloadError.NotFound s u d) => rfl
  | some (RDownloadError.MismatchedHash e a) => rfl

/-- Claim C6: sync_rustup_init counts exactly the per-platform errors that
are not NotFound (first conjunct), succeeds exactly when that counter is
zero (second conjunct), returns FailedDownloads carrying the counter exactly
when it is non-zero (third conjunct); and in the concrete run where exactly
one platform yields NotFound and every other platform succeeds, it returns
success (fourth conjunct). -/
theorem sync_rustup_init_counts_non_notfound_errors
    (outcome : String → Bool → Option RDownloadError) (platforms : Platforms)
    (v : String) :
    countInitErrors outcome platforms =
      ((platforms.unix.map (fun q => (q, false)) ++
        platforms.windows.map (fun q => (q, true))).countP
        (fun pe => realFailure (outcome pe.1 pe.2))) ∧
    (sync_rustup_init (Except.ok v) outcome platforms = Except.ok () ↔
      countInitErrors outcome platforms = 0) ∧
    (∀ c, sync_rustup_init (Except.ok v) outcome platforms =
        Except.error (SyncError.FailedDownloads c) ↔
      (c = countInitErrors outcome platforms ∧ c ≠ 0)) ∧
    sync_rustup_init (Except.ok "1.27.1")
      (fun q e =>
        if q == "aarch64-unknown-linux-gnu" && !e then
          some (RDownloadError.NotFound 404 "u" "d")
        else none)
      { unix := ["aarch64-unknown-linux-gnu", "x86_64-unknown-linux-gnu"],
        windows := ["x86_64-pc-windows-msvc"] } = Except.ok () := by
  refine ⟨?_, ?_, ?_, ?_⟩
  · unfold countInitErrors
    rw [List.countP_append, List.countP_map, List.countP_map]
    rw [sum_map_eq_countP _ _ (fun p => realFailure (outcome p false))
      (fun p => workerFailures_eq outcome p false)]
    rw [sum_map_eq_countP _ _ (fun p => realFailure (outcome p true))
      (fun p => workerFailures_eq outcome p true)]
    rfl
  · unfold sync_rustup_init
    by_cases h : countInitErrors outcome platforms = 0 <;> simp [h]
  · intro c
    constructor
    · intro e
      unfold sync_rustup_init at e
      by_cases h : countInitErrors outcome platforms = 0
      · simp [h] at e
      · simp [h] at e
        subst e
        exact ⟨rfl, h⟩
    · intro hc
      obtain ⟨rfl, hne⟩ := hc
      unfold sync_rustup_init
      simp [hne]
  · rfl

/-- Claim C3: in sync_rustup_channel, exactly when the per-artifact failure
counter is zero the ledger entry (manifest date mapped to the relative
paths) is written and then the staged .part manifest and its sidecar are
renamed into place, in that order (the trace lists the ledger write first);
when the counter is non-zero the function returns FailedDownloads with the
counter, the ledger is unchanged and the filesystem (in particular the
staged .part manifest) is untouched. -/
theorem sync_rustup_channel_commits_iff_no_failures
    (date : String) (files : List (String × String))
    (outcome : String × String → Option RDownloadError)
    (p : String) (ledger : ChannelHistory) (fs : FS) (m s : Bytes)
    (r : Except SyncError Unit × ChannelHistory × FS × List SyncAction)
    (hm : fs.find (p ++ ".part") = some m)
    (hs : fs.find ((p ++ ".part") ++ ".sha256") = some s)
    (hr : r = sync_rustup_channel (Except.ok (date, files)) outcome p ledger fs) :
    (files.countP (fun f => (outcome f).isSome) = 0 →
      r.1 = Except.ok () ∧
      r.2.1 = ledger.insert date (files.map Prod.fst) ∧
      (r.2.2.1).find p = some m ∧
      (r.2.2.1).find (p ++ ".part") = none ∧
      (r.2.2.1).find (p ++ ".sha256") = some s ∧
      (r.2.2.1).find ((p ++ ".part") ++ ".sha256") = none ∧
      r.2.2.2 = [SyncAction.writeLedger date (files.map Prod.fst),
        SyncAction.renameFile ((p ++ ".part") ++ ".sha256") (p ++ ".sha256"),
        SyncAction.renameFile (p ++ ".part") p]) ∧
    (files.countP (fun f => (outcome f).isSome) ≠ 0 →
      r.1 = Except.error
        (SyncError.FailedDownloads (files.countP (fun f => (outcome f).isSome))) ∧
      r.2.1 = ledger ∧
      r.2.2.1 = fs ∧
      r.2.2.2 = []) := by
  have h5 : (".part" : String).length = 5 := rfl
  have h7 : (".sha256" : String).length = 7 := rfl
  have d_part_p : (p ++ ".part") ≠ p :=
    str_ne_of_length_ne _ _ (by simp only [String.length_append, h5]; omega)
  have d_p_psha : p ≠ (p ++ ".sha256") :=
    str_ne_of_length_ne _ _ (by simp only [String.length_append, h7]; omega)
  have d_part_psha : (p ++ ".part") ≠ (p ++ ".sha256") :=
    str_ne_of_length_ne _ _ (by simp only [String.length_append, h5, h7]; omega)
  have d_p_partsha : p ≠ ((p ++ ".part") ++ ".sha256") :=
    str_ne_of_length_ne _ _ (by simp only [String.length_append, h5, h7]; omega)
  have d_part_partsha : (p ++ ".part") ≠ ((p ++ ".part") ++ ".sha256") :=
    str_ne_of_length_ne _ _ (by simp only [String.length_append, h5, h7]; omega)
  have d_psha_partsha : (p ++ ".sha256") ≠ ((p ++ ".part") ++ ".sha256") :=
    str_ne_of_length_ne _ _ (by simp only [String.length_append, h5, h7]; omega)
  subst hr
  constructor
  · intro h0
    simp only [sync_rustup_channel, move_if_exists_with_sha256, move_if_exists,
      add_to_channel_history, h0, if_pos, hs, hm, Fmap.find_insert,
      Fmap.find_erase, if_neg, reduceIte]
    simp [Fmap.find_insert, Fmap.find_erase, d_part_p, d_p_psha, d_part_psha,
      d_p_partsha, d_part_partsha, d_psha_partsha, hm, hs, d_part_p.symm,
      d_part_psha.symm, d_p_psha.symm, d_part_partsha.symm,
      d_p_partsha.symm, d_psha_partsha.symm]
  · intro hne
    simp [sync_rustup_channel, hne]

/-- Witness for C3 at a concrete staged manifest, one artifact whose
download succeeds, and an empty ledger: the commit happens and the trace
puts the ledger write before the two renames. -/
theorem sync_rustup_channel_commits_iff_no_failures_witness :
    (sync_rustup_channel
        (Except.ok ("2020-01-01", [("dist/2020-01-01/a.tar.gz", "h")]))
        (fun _ => none) "dist/channel-rust-stable.toml" ([] : ChannelHistory)
        [("dist/channel-rust-stable.toml.part", [1]),
         ("dist/channel-rust-stable.toml.part.sha256", [2])]).1 =
      Except.ok () ∧
    (sync_rustup_channel
        (Except.ok ("2020-01-01", [("dist/2020-01-01/a.tar.gz", "h")]))
        (fun _ => none) "dist/channel-rust-stable.toml" ([] : ChannelHistory)
        [("dist/channel-rust-stable.toml.part", [1]),
         ("dist/channel-rust-stable.toml.part.sha256", [2])]).2.2.2 =
      [SyncAction.writeLedger "2020-01-01" ["dist/2020-01-01/a.tar.gz"],
       SyncAction.renameFile "dist/channel-rust-stable.toml.part.sha256"
         "dist/channel-rust-stable.toml.sha256",
       SyncAction.renameFile "dist/channel-rust-stable.toml.part"
         "dist/channel-rust-stable.toml"] := by
  have h := sync_rustup_channel_commits_iff_no_failures "2020-01-01"
    [("dist/2020-01-01/a.tar.gz", "h")] (fun _ => none)
    "dist/channel-rust-stable.toml" ([] : ChannelHistory)
    [("dist/channel-rust-stable.toml.part", [1]),
     ("dist/channel-rust-stable.toml.part.sha256", [2])] [1] [2]
    (sync_rustup_channel
      (Except.ok ("2020-01-01", [("dist/2020-01-01/a.tar.gz", "h")]))
      (fun _ => none) "dist/channel-rust-stable.toml" ([] : ChannelHistory)
      [("dist/channel-rust-stable.toml.part", [1]),
       ("dist/channel-rust-stable.toml.part.sha256", [2])])
    (by rfl) (by rfl) rfl
  obtain ⟨a1, _, _, _, _, _, a7⟩ := h.1 (by rfl)
  exact ⟨a1, a7⟩

/-- Claim C7: for a repository whose master reference points at a tip (and
whose id allocator is fresh), rewrite_config_json succeeds, writes
config.json in the working tree as the pretty-printed object with dl and api
both equal to base_url, and creates exactly one new commit: master now
points at the fresh id, that id carries parent [tip], message "Rewrite
config.json" and the Panamax signature as author and committer, the id was
not previously a commit, and every other commit id is unchanged. -/
theorem rewrite_config_json_creates_single_commit
    (repo : GitRepo) (base_url : String) (tip : Nat)
    (htip : repo.refs.find "refs/heads/master" = some tip)
    (hfresh : repo.commits.find repo.nextId = none) :
    (rewrite_config_json repo base_url).1 = Except.ok () ∧
    ((rewrite_config_json repo base_url).2.1).worktree.find "config.json" =
      some (to_vec_pretty base_url base_url) ∧
    ((rewrite_config_json repo base_url).2.1).refs.find "refs/heads/master" =
      some repo.nextId ∧
    ((rewrite_config_json repo base_url).2.1).commits.find repo.nextId =
      some
        { parents := [tip], message := "Rewrite config.json",
          authorName := panamaxName, authorEmail := panamaxEmail,
          committerName := panamaxName, committerEmail := panamaxEmail,
          tree := repo.index.insert "config.json"
            (to_vec_pretty base_url base_url) } ∧
    repo.commits.find repo.nextId = none ∧
    (∀ i : Nat, i ≠ repo.nextId →
      ((rewrite_config_json repo base_url).2.1).commits.find i =
        repo.commits.find i) ∧
    (rewrite_config_json repo base_url).2.2 =
      [GitAction.openRepo, GitAction.writeFile "config.json",
       GitAction.addPath "config.json", GitAction.makeCommit repo.nextId] := by
  refine ⟨?_, ?_, ?_, ?_, hfresh, ?_, ?_⟩
  · simp [rewrite_config_json, htip]
  · simp [rewrite_config_json, htip, Fmap.find_insert_same]
  · simp [rewrite_config_json, htip, Fmap.find_insert_same]
  · simp [rewrite_config_json, htip, Fmap.find_insert_same]
  · intro i hi
    simp only [rewrite_config_json, htip]
    exact Fmap.find_insert_ne _ _ _ _ hi
  · simp [rewrite_config_json, htip]

/-- Witness for C7 at a one-commit repository whose master tip is commit 0. -/
theorem rewrite_config_json_creates_single_commit_witness :
    (rewrite_config_json repo0 "https://m/").1 = Except.ok () ∧
    ((rewrite_config_json repo0 "https://m/").2.1).commits.find 1 =
      some
        { parents := [0], message := "Rewrite config.json",
          authorName := panamaxName, authorEmail := panamaxEmail,
          committerName := panamaxName, committerEmail := panamaxEmail,
          tree := [("config.json", to_vec_pretty "https://m/" "https://m/")] } := by
  have h := rewrite_config_json_creates_single_commit repo0 "https://m/" 0
    (by rfl) (by rfl)
  exact ⟨h.1, h.2.2.2.1⟩

/-- Claim C8: latest_dates_from_channel_history returns min(N, number of
ledger dates) dates (all of them when the ledger holds fewer than N), in
descending lexicographic order, each taken from the ledger's dates, and
every ledger date left out is less than or equal to every returned date --
so the returned dates are the N greatest; and the GC keep-set of the channel
is exactly the union of the artifact paths listed under the returned dates. -/
theorem latest_dates_are_the_greatest_descending (ledger : ChannelHistory) (n : Nat) :
    (latest_dates_from_channel_history ledger n).length =
      min n (List.map Prod.fst ledger).length ∧
    List.Sorted (fun a b : String => b ≤ a)
      (latest_dates_from_channel_history ledger n) ∧
    (∀ d, d ∈ latest_dates_from_channel_history ledger n →
      d ∈ List.map Prod.fst ledger) ∧
    (∀ x, x ∈ List.map Prod.fst ledger →
      x ∉ latest_dates_from_channel_history ledger n →
      ∀ d, d ∈ latest_dates_from_channel_history ledger n → x ≤ d) ∧
    (∀ q, q ∈ keepSetForChannel ledger n ↔
      ∃ d, d ∈ latest_dates_from_channel_history ledger n ∧
        q ∈ (ledger.find d).getD []) := by
  have hperm := List.perm_insertionSort (fun a b : String => a ≤ b)
    (List.map Prod.fst ledger)
  have hsort := List.sorted_insertionSort (fun a b : String => a ≤ b)
    (List.map Prod.fst ledger)
  have hrev : List.Sorted (fun a b : String => b ≤ a)
      (List.insertionSort (fun a b : String => a ≤ b)
        (List.map Prod.fst ledger)).reverse :=
    List.pairwise_reverse.2 hsort
  refine ⟨?_, ?_, ?_, ?_, ?_⟩
  · simp [latest_dates_from_channel_history, List.length_take, hperm.length_eq]
  · exact List.Pairwise.sublist (List.take_sublist _ _) hrev
  · intro d hd
    exact hperm.mem_iff.1 (List.mem_reverse.1 (List.take_subset _ _ hd))
  · intro x hx hnot d hd
    have hx_rev : x ∈ (List.insertionSort (fun a b : String => a ≤ b)
        (List.map Prod.fst ledger)).reverse :=
      List.mem_reverse.2 (hperm.mem_iff.2 hx)
    rw [← List.take_append_drop n ((List.insertionSort (fun a b : String => a ≤ b)
      (List.map Prod.fst ledger)).reverse)] at hx_rev
    rcases List.mem_append.1 hx_rev with hx_take | hx_drop
    · exact absurd hx_take hnot
    · exact hrev.rel_of_mem_take_of_mem_drop hd hx_drop
  · intro q
    simp [keepSetForChannel, List.mem_flatMap]
